import Mathlib

/-!
Shallow embedding of the acp-core-sdk client transport subsystem:
the `SdkResponse`/`RememberError` outcome model with its `ok`/`fail`
constructors, the `HttpClient` transport (`request`, `resolveToken`,
`parseError`, `statusToCode`), the `assertServerSide` environment guard
with the `createSvcClient`/`createAppClient` factories, and the compound
`ProfileOperations.createAndPublish` workflow.

External behaviour (the fetch mechanism, the consumer token callback and
the jsonwebtoken signing routine) is passed in explicitly; thrown
JavaScript values are modelled by `Thrown` and a call that can throw
returns `Except Thrown _`.
-/

namespace CoreSdk

/-- A JSON value, as produced by a successful `res.json()` call. -/
inductive Json where
  | null : Json
  | bool : Bool → Json
  | num : Int → Json
  | str : String → Json
  | arr : List Json → Json
  | obj : List (String × Json) → Json

/-- A thrown JavaScript value: either an `Error` instance carrying a
message, or any other value (for which the code falls back to the
generic message). -/
inductive Thrown where
  | error : String → Thrown
  | nonError : Thrown

/-- The message extraction the transport performs on a caught value:
`err instanceof Error ? err.message : 'Unknown error'`. -/
def thrownMessage : Thrown → String
  | .error m => m
  | .nonError => "Unknown error"

/-- Machine-readable error from the REST API (`RememberError` in the
source). In JavaScript the fields hold whatever the error body carried,
so `code` and `message` are modelled as JSON values; `context` is
`none` when the property is absent (undefined). -/
structure RememberError where
  code : Json
  message : Json
  status : Nat
  context : Option Json

/-- The `SdkResponse<T>` shape: `data: T | null` and
`error: RememberError | null`, each field modelled by an `Option` with
`none` standing for `null`. The shape itself does not force exactly one
branch to be populated. -/
structure SdkResponse (T : Type) where
  data : Option T
  error : Option RememberError

/-- `ThrowableSdkResponse<T>`: an `SdkResponse` together with the result
its `throwOnError()` closure produces. -/
structure ThrowableSdkResponse (T : Type) extends SdkResponse T where
  throwOnError : Except RememberError T

/-- The `ok(data)` success constructor. -/
def ok {T : Type} (d : T) : ThrowableSdkResponse T :=
  { data := some d, error := none, throwOnError := .ok d }

/-- The `fail(error)` failure constructor. -/
def fail {T : Type} (e : RememberError) : ThrowableSdkResponse T :=
  { data := none, error := some e, throwOnError := .error e }

/-- JavaScript truthiness of a JSON value. -/
def jsTruthy : Json → Bool
  | .null => false
  | .bool b => b
  | .num n => n != 0
  | .str s => s != ""
  | .arr _ => true
  | .obj _ => true

/-- Property access `body.k` on a parsed JSON value: `none` models
undefined (non-object receiver or absent key); a present key yields its
value, which may itself be JSON null. -/
def jsGet (body : Json) (k : String) : Option Json :=
  match body with
  | .obj fields => fields.lookup k
  | _ => none

/-- The nullish-coalescing operator `v ?? d`: null and undefined both
fall through to the default. -/
def orNullish (v : Option Json) (d : Json) : Json :=
  match v with
  | some .null => d
  | some x => x
  | none => d

/-- jsonwebtoken sign payload `{ sub: userId }`. -/
structure JwtPayload where
  sub : String

/-- Options passed to `jwt.sign` after defaulting. -/
structure JwtSignOpts where
  issuer : String
  audience : String
  expiresIn : String

/-- `jwtOptions` of the self-signed auth configuration. -/
structure JwtOptions where
  issuer : Option String
  audience : Option String
  expiresIn : Option String

/-- Option A of `HttpClientConfig`: SDK-generated JWT per request. -/
structure AuthConfig where
  serviceToken : String
  jwtOptions : Option JwtOptions

/-- `HttpClientConfig`: base URL plus the two optional auth strategies.
The consumer callback may throw, hence `Except Thrown`. -/
structure HttpClientConfig where
  baseUrl : String
  auth : Option AuthConfig
  getAuthToken : Option (String → Except Thrown String)
  validateResponses : Option Bool

/-- `RequestOptions`: body, query params, acting user, extra headers.
Optional record fields are modelled by lists that may be empty. -/
structure RequestOptions where
  body : Option Json
  params : List (String × String)
  userId : String
  headers : List (String × String)

/-- The outbound call handed to the fetch mechanism. -/
structure FetchRequest where
  url : String
  method : String
  headers : List (String × String)
  body : Option Json

/-- One HTTP response: status, statusText, and the result of
`res.json()` — `Except.error` models a body that fails to parse as JSON
(including an empty body), making `res.json()` throw. -/
structure HttpResponse where
  status : Nat
  statusText : String
  jsonBody : Except Thrown Json

/-- `res.ok`: status in the inclusive range 200–299. -/
def resOk (res : HttpResponse) : Bool :=
  200 ≤ res.status && res.status ≤ 299

/-- The external world a request runs against: the behaviour of
`jwt.default.sign` and of `fetch`, either of which may throw. -/
structure Env where
  jwtSign : JwtPayload → JwtSignOpts → Except Thrown String
  fetch : FetchRequest → Except Thrown HttpResponse

/-- `config.baseUrl.replace(/\/$/, '')`: strip one trailing slash. -/
def stripTrailingSlash (s : String) : String :=
  if s.endsWith "/" then s.dropRight 1 else s

/-- The `HttpClient` instance state: normalized base URL plus the
configuration it was constructed with. -/
structure HttpClient where
  baseUrl : String
  config : HttpClientConfig

/-- The `HttpClient` constructor. -/
def HttpClient.create (config : HttpClientConfig) : HttpClient :=
  { baseUrl := stripTrailingSlash config.baseUrl, config := config }

/-- `buildUrl`: join the normalized base URL with the path and render
any query parameters. -/
def HttpClient.buildUrl (c : HttpClient) (path : String)
    (params : List (String × String)) : String :=
  let base := c.baseUrl ++ path
  match params with
  | [] => base
  | ps => base ++ "?" ++ String.intercalate "&" (ps.map (fun p => p.1 ++ "=" ++ p.2))

/-- Result of `resolveToken` together with whether the jsonwebtoken
signing path (behind the lazy import) was exercised. -/
structure ResolveResult where
  result : Except Thrown (Option String)
  jwtUsed : Bool

/-- `HttpClient.resolveToken`: the consumer callback wins when
configured; otherwise a truthy `auth.serviceToken` triggers the lazily
imported JWT signing with defaulted options; otherwise no token. -/
def resolveToken (config : HttpClientConfig) (env : Env) (userId : String) :
    ResolveResult :=
  match config.getAuthToken with
  | some cb => { result := (cb userId).map some, jwtUsed := false }
  | none =>
    match config.auth with
    | some a =>
      if a.serviceToken ≠ "" then
        { result :=
            (env.jwtSign { sub := userId }
              { issuer := ((a.jwtOptions.map JwtOptions.issuer).join).getD "sdk"
                audience := ((a.jwtOptions.map JwtOptions.audience).join).getD "api"
                expiresIn := ((a.jwtOptions.map JwtOptions.expiresIn).join).getD "5m" }).map some
          jwtUsed := true }
      else { result := .ok none, jwtUsed := false }
    | none => { result := .ok none, jwtUsed := false }

/-- `statusToCode`: the fixed status-to-code table with default
`unknown`. -/
def statusToCode (status : Nat) : String :=
  match status with
  | 400 => "validation"
  | 401 => "unauthorized"
  | 403 => "forbidden"
  | 404 => "not_found"
  | 409 => "conflict"
  | 429 => "rate_limited"
  | 500 => "internal"
  | _ => "unknown"

/-- `parseError`: read `code`/`message`/`context` from the JSON error
body when it parses, defaulting `code` and `message` via `??`; on a
parse failure, fall back entirely to the status-derived values. The
status field is always the real HTTP status. -/
def parseError (res : HttpResponse) : RememberError :=
  match res.jsonBody with
  | .ok body =>
    { code := orNullish (jsGet body "code") (.str (statusToCode res.status))
      message := orNullish (jsGet body "message") (.str res.statusText)
      status := res.status
      context := jsGet body "context" }
  | .error _ =>
    { code := .str (statusToCode res.status)
      message := .str res.statusText
      status := res.status
      context := none }

/-- The `network_error` response built in the catch block of
`request`. -/
def netErr (t : Thrown) : SdkResponse Json :=
  { data := none
    error := some
      { code := .str "network_error"
        message := .str (thrownMessage t)
        status := 0
        context := none } }

/-- The body of the try block of `request`: issue the fetch; a thrown
fetch or a thrown `res.json()` on a 2xx body is caught and normalized
to `network_error`; a non-2xx response goes through `parseError`; a 204
yields `{ data: null, error: null }`. The data field carries whatever
`res.json()` resolved to; note that a 2xx body consisting of the JSON
text null is carried as the value `Json.null` here, while in JavaScript
it makes the data field itself null — indistinguishable from the 204
result. -/
def tryFetch (env : Env) (req : FetchRequest) : SdkResponse Json :=
  match env.fetch req with
  | .error t => netErr t
  | .ok res =>
    if !resOk res then
      { data := none, error := some (parseError res) }
    else if res.status = 204 then
      { data := none, error := none }
    else
      match res.jsonBody with
      | .ok j => { data := some j, error := none }
      | .error t => netErr t

/-- Attach `Authorization: Bearer` when the resolved token is truthy. -/
def attachAuth (headers : List (String × String)) (tok : Option String) :
    List (String × String) :=
  match tok with
  | some t => if t ≠ "" then headers ++ [("Authorization", "Bearer " ++ t)] else headers
  | none => headers

/-- `options?.body ? JSON.stringify(options.body) : undefined`: the body
is forwarded only when truthy. -/
def serializeBody (body : Option Json) : Option Json :=
  match body with
  | some b => if jsTruthy b then some b else none
  | none => none

/-- Query params of the optional options record. -/
def paramsOf (o : Option RequestOptions) : List (String × String) :=
  match o with
  | some x => x.params
  | none => []

/-- Extra headers of the optional options record. -/
def headersOf (o : Option RequestOptions) : List (String × String) :=
  match o with
  | some x => x.headers
  | none => []

/-- Body of the optional options record. -/
def bodyOf (o : Option RequestOptions) : Option Json :=
  match o with
  | some x => x.body
  | none => none

/-- `options?.userId`, with absent options reading as undefined. -/
def userIdOf (o : Option RequestOptions) : String :=
  match o with
  | some x => x.userId
  | none => ""

/-- Truthiness of `options?.userId` — the gate on the auth-attachment
step of `request`. -/
def userIdTruthy (o : Option RequestOptions) : Bool :=
  userIdOf o ≠ ""

/-- The observable result of one `request` call: the returned
`SdkResponse`, or the thrown value when an exception escapes; whether
the fetch mechanism was invoked; and whether the JWT signing path was
exercised. -/
structure RequestTrace where
  outcome : Except Thrown (SdkResponse Json)
  fetchCalled : Bool
  jwtUsed : Bool

/-- `HttpClient.request`: build the URL and headers, resolve a token
when `options.userId` is truthy (note: this await happens before the
try block, so a throwing resolution escapes the method), then run the
try/catch around the fetch. -/
def HttpClient.request (c : HttpClient) (env : Env) (method : String)
    (path : String) (options : Option RequestOptions) : RequestTrace :=
  let url := c.buildUrl path (paramsOf options)
  let headers := ("Content-Type", "application/json") :: headersOf options
  if userIdTruthy options then
    let r := resolveToken c.config env (userIdOf options)
    match r.result with
    | .error t => { outcome := .error t, fetchCalled := false, jwtUsed := r.jwtUsed }
    | .ok tok =>
      { outcome := .ok (tryFetch env
          { url := url, method := method, headers := attachAuth headers tok
            body := serializeBody (bodyOf options) })
        fetchCalled := true
        jwtUsed := r.jwtUsed }
  else
    { outcome := .ok (tryFetch env
        { url := url, method := method, headers := headers
          body := serializeBody (bodyOf options) })
      fetchCalled := true
      jwtUsed := false }

/-- The JavaScript global execution context: whether a browser-style
`window` global is defined. -/
structure JsEnv where
  windowDefined : Bool

/-- `assertServerSide`: throw when `typeof window` is not undefined. -/
def assertServerSide (js : JsEnv) : Except String Unit :=
  if js.windowDefined then .error "Client SDKs are server-side only." else .ok ()

/-- Resource grouping for `/api/svc/v1/memories/*`. -/
structure MemoriesResource where
  http : HttpClient

/-- `MemoriesResource.create`: strict 1:1 delegation to one transport
call. -/
def MemoriesResource.create (r : MemoriesResource) (env : Env)
    (userId : String) (input : Json) : RequestTrace :=
  r.http.request env "POST" "/api/svc/v1/memories"
    (some { body := some input, params := [], userId := userId, headers := [] })

/-- Resource grouping for `/api/svc/v1/relationships/*`. -/
structure RelationshipsResource where
  http : HttpClient

/-- Resource grouping for `/api/svc/v1/spaces/*`. -/
structure SpacesResource where
  http : HttpClient

/-- Resource grouping for `/api/svc/v1/confirmations/*`. -/
structure ConfirmationsResource where
  http : HttpClient

/-- Resource grouping for `/api/svc/v1/preferences/*`. -/
structure PreferencesResource where
  http : HttpClient

/-- Resource grouping for `/api/svc/v1/trust/*`. -/
structure TrustResource where
  http : HttpClient

/-- Resource grouping for the health endpoint. -/
structure HealthResource where
  http : HttpClient

/-- The assembled atomic-tier client. -/
structure SvcClient where
  memories : MemoriesResource
  relationships : RelationshipsResource
  spaces : SpacesResource
  confirmations : ConfirmationsResource
  preferences : PreferencesResource
  trust : TrustResource
  health : HealthResource

/-- Compound operations grouped around profiles. -/
structure ProfileOperations where
  http : HttpClient

/-- Compound operations grouped around ghost personas. -/
structure GhostOperations where
  http : HttpClient

/-- The assembled compound-tier client. -/
structure AppClient where
  profiles : ProfileOperations
  ghost : GhostOperations

/-- The observable result of running a top-level factory: the
constructed client or the thrown guard error, plus how many transport
instances were constructed along the way. -/
structure CreateTrace (A : Type) where
  result : Except String A
  transportsCreated : Nat

/-- `createSvcClient`: run the environment guard, then construct one
`HttpClient` shared by every resource grouping. -/
def createSvcClient (js : JsEnv) (config : HttpClientConfig) :
    CreateTrace SvcClient :=
  match assertServerSide js with
  | .error e => { result := .error e, transportsCreated := 0 }
  | .ok _ =>
    let http := HttpClient.create config
    { result := .ok
        { memories := ⟨http⟩, relationships := ⟨http⟩, spaces := ⟨http⟩
          confirmations := ⟨http⟩, preferences := ⟨http⟩, trust := ⟨http⟩
          health := ⟨http⟩ }
      transportsCreated := 1 }

/-- `createAppClient`: run the environment guard, then construct one
`HttpClient` shared by both operation groupings. -/
def createAppClient (js : JsEnv) (config : HttpClientConfig) :
    CreateTrace AppClient :=
  match assertServerSide js with
  | .error e => { result := .error e, transportsCreated := 0 }
  | .ok _ =>
    let http := HttpClient.create config
    { result := .ok { profiles := ⟨http⟩, ghost := ⟨http⟩ }
      transportsCreated := 1 }

/-- The transport interface a compound operation programs against —
`this.http.request` with arguments method, path, optional body, acting
user. Passing it as a parameter is the mockable Transport of the
compound tier. -/
abbrev HttpStep := String → String → Option Json → String → SdkResponse Json

/-- Input of the create-and-publish workflow. -/
structure CreateProfileInput where
  display_name : String
  bio : Option String
  tags : Option (List String)

/-- The profile input as a JSON value (the content field of the
created memory). -/
def inputJson (i : CreateProfileInput) : Json :=
  .obj ([("display_name", .str i.display_name)]
    ++ (match i.bio with | some b => [("bio", Json.str b)] | none => [])
    ++ (match i.tags with
        | some ts => [("tags", Json.arr (ts.map Json.str))]
        | none => []))

/-- The step-1 request body of `createAndPublish`. -/
def createMemoryBody (i : CreateProfileInput) : Json :=
  .obj [("content", inputJson i), ("type", .str "profile"),
        ("tags", .arr (("profile" :: i.tags.getD []).map Json.str))]

/-- The non-null-asserted property access `x.data!.k`: reading a
property of a null `data` field throws a TypeError at runtime;
otherwise an absent key reads as undefined (collapsed to JSON null
here, the value being fed back into an opaque request body). -/
def bangGet (d : Option Json) (k : String) : Except Thrown Json :=
  match d with
  | none => .error (.error ("Cannot read properties of null (reading " ++ k ++ ")"))
  | some j => .ok ((jsGet j k).getD Json.null)

/-- String coercion of a JSON value inside a template literal. The
array case (elements joined by commas) is not observed by any property
proven here. -/
def jsToString : Json → String
  | .null => "null"
  | .bool b => if b then "true" else "false"
  | .num n => toString n
  | .str s => s
  | .arr _ => ""
  | .obj _ => "[object Object]"

/-- The observable result of one compound workflow: the returned
`SdkResponse` (or the thrown value) and how many transport calls were
issued. -/
structure CompoundTrace where
  outcome : Except Thrown (SdkResponse Json)
  calls : Nat

/-- Step 1 of `createAndPublish`: create the profile memory. -/
def ProfileOperations.capStep1 (request : HttpStep) (userId : String)
    (input : CreateProfileInput) : SdkResponse Json :=
  request "POST" "/api/svc/v1/memories" (some (createMemoryBody input)) userId

/-- Step 2 of `createAndPublish`: request a publish token for the
created memory id. -/
def ProfileOperations.capStep2 (request : HttpStep) (userId : String)
    (idv : Json) : SdkResponse Json :=
  request "POST" "/api/svc/v1/spaces/publish"
    (some (.obj [("memory_id", idv), ("spaces", .arr [.str "public"])])) userId

/-- Step 3 of `createAndPublish`: confirm the publication. -/
def ProfileOperations.capStep3 (request : HttpStep) (userId : String)
    (tokv : Json) : SdkResponse Json :=
  request "POST" ("/api/svc/v1/confirmations/" ++ jsToString tokv ++ "/confirm")
    none userId

/-- `ProfileOperations.createAndPublish`: create memory, request a
publish token, confirm — inspecting the error branch after each step
and returning `fail` immediately on the first populated error; the
final step is returned as-is. -/
def ProfileOperations.createAndPublish (request : HttpStep)
    (userId : String) (input : CreateProfileInput) : CompoundTrace :=
  let memory := ProfileOperations.capStep1 request userId input
  match memory.error with
  | some e => { outcome := .ok (fail e).toSdkResponse, calls := 1 }
  | none =>
    match bangGet memory.data "id" with
    | .error t => { outcome := .error t, calls := 1 }
    | .ok idv =>
      let token := ProfileOperations.capStep2 request userId idv
      match token.error with
      | some e => { outcome := .ok (fail e).toSdkResponse, calls := 2 }
      | none =>
        match bangGet token.data "token" with
        | .error t => { outcome := .error t, calls := 2 }
        | .ok tokv =>
          let confirmed := ProfileOperations.capStep3 request userId tokv
          { outcome := .ok confirmed, calls := 3 }

/-- An `SdkResponse` with exactly one branch populated. -/
def exactlyOne {T : Type} (r : SdkResponse T) : Prop :=
  (r.data.isSome = true ∧ r.error = none) ∨ (r.data = none ∧ r.error.isSome = true)

/-- Credential resolution succeeds for the request at hand (it is only
consulted when `options.userId` is truthy). -/
def authResolves (c : HttpClient) (env : Env) (options : Option RequestOptions) : Prop :=
  userIdTruthy options = true →
    ∃ t, (resolveToken c.config env (userIdOf options)).result = Except.ok t

theorem request_ok_of_authResolves (c : HttpClient) (env : Env) (m p : String)
    (o : Option RequestOptions) (h : authResolves c env o) :
    ∃ req b, c.request env m p o =
      { outcome := .ok (tryFetch env req), fetchCalled := true, jwtUsed := b } := by
  unfold HttpClient.request
  by_cases hu : userIdTruthy o = true
  · obtain ⟨t, ht⟩ := h hu
    simp only [hu, if_pos, ht]
    exact ⟨_, _, rfl⟩
  · simp only [Bool.not_eq_true] at hu
    simp only [hu, Bool.false_eq_true, if_false]
    exact ⟨_, _, rfl⟩

theorem tryFetch_netfail {env : Env} {req : FetchRequest} {t : Thrown}
    (h : env.fetch req = .error t) : tryFetch env req = netErr t := by
  unfold tryFetch; rw [h]

theorem tryFetch_non2xx {env : Env} {req : FetchRequest} {res : HttpResponse}
    (h : env.fetch req = .ok res) (hres : resOk res = false) :
    tryFetch env req = { data := none, error := some (parseError res) } := by
  unfold tryFetch; rw [h]; simp [hres]

theorem tryFetch_204 {env : Env} {req : FetchRequest} {res : HttpResponse}
    (h : env.fetch req = .ok res) (hok : resOk res = true) (h204 : res.status = 204) :
    tryFetch env req = { data := none, error := none } := by
  unfold tryFetch; rw [h]; simp [hok, h204]

theorem tryFetch_2xx_json {env : Env} {req : FetchRequest} {res : HttpResponse}
    {j : Json} (h : env.fetch req = .ok res) (hok : resOk res = true)
    (h204 : res.status ≠ 204) (hj : res.jsonBody = .ok j) :
    tryFetch env req = { data := some j, error := none } := by
  unfold tryFetch; rw [h]; simp [hok, h204, hj]

theorem tryFetch_2xx_badjson {env : Env} {req : FetchRequest} {res : HttpResponse}
    {t : Thrown} (h : env.fetch req = .ok res) (hok : resOk res = true)
    (h204 : res.status ≠ 204) (hj : res.jsonBody = .error t) :
    tryFetch env req = netErr t := by
  unfold tryFetch; rw [h]; simp [hok, h204, hj]

/-! Concrete fixtures used by the bug evaluations, counterexamples and
witnesses. -/

/-- A configuration with neither auth strategy. -/
def cfgNoAuth : HttpClientConfig :=
  { baseUrl := "https://api.example.com", auth := none, getAuthToken := none
    validateResponses := none }

/-- A configuration whose consumer token callback throws. -/
def cfgCbThrows : HttpClientConfig :=
  { baseUrl := "https://api.example.com", auth := none
    getAuthToken := some (fun _ => .error (.error "token fetch failed"))
    validateResponses := none }

/-- A self-signed configuration. -/
def cfgSelfSigned : HttpClientConfig :=
  { baseUrl := "https://api.example.com"
    auth := some { serviceToken := "shared-secret", jwtOptions := none }
    getAuthToken := none, validateResponses := none }

/-- A configuration supplying both strategies at once. -/
def cfgBoth : HttpClientConfig :=
  { baseUrl := "https://api.example.com"
    auth := some { serviceToken := "shared-secret", jwtOptions := none }
    getAuthToken := some (fun u => .ok ("cb-" ++ u))
    validateResponses := none }

/-- An environment whose fetch always yields the given response and
whose signing routine succeeds. -/
def envConst (res : HttpResponse) : Env :=
  { jwtSign := fun _ _ => .ok "signed.jwt", fetch := fun _ => .ok res }

/-- An environment whose fetch always throws the given value. -/
def envThrows (t : Thrown) : Env :=
  { jwtSign := fun _ _ => .ok "signed.jwt", fetch := fun _ => .error t }

/-- An environment whose JWT signing routine throws. -/
def envSignThrows : Env :=
  { jwtSign := fun _ _ => .error (.error "sign failure")
    fetch := fun _ => .ok { status := 200, statusText := "OK", jsonBody := .ok .null } }

/-- A 404 response with a JSON error body. -/
def resp404 : HttpResponse :=
  { status := 404, statusText := "Not Found"
    jsonBody := .ok (.obj [("code", .str "not_found"),
                           ("message", .str "Widget w1 not found")]) }

/-- A 204 response; its body makes `res.json()` throw, but the 204
branch never reads it. -/
def resp204 : HttpResponse :=
  { status := 204, statusText := "No Content"
    jsonBody := .error (.error "Unexpected end of JSON input") }

/-- A 201 response with a JSON body. -/
def resp201 : HttpResponse :=
  { status := 201, statusText := "Created"
    jsonBody := .ok (.obj [("id", .str "w2"), ("name", .str "Gadget")]) }

/-- A 200 response with an empty body, on which `res.json()` throws. -/
def resp200empty : HttpResponse :=
  { status := 200, statusText := "OK"
    jsonBody := .error (.error "Unexpected end of JSON input") }

/-- A 200 response with a malformed body, on which `res.json()`
throws. -/
def resp200bad : HttpResponse :=
  { status := 200, statusText := "OK"
    jsonBody := .error (.error "Unexpected token in JSON") }

/-- Minimal request options acting as user u1. -/
def optsU1 : RequestOptions :=
  { body := none, params := [], userId := "u1", headers := [] }

/-- A sample error value. -/
def sampleErr : RememberError :=
  { code := .str "conflict", message := .str "already published", status := 409
    context := none }

/-- C1: the claim says a throwing credential resolution surfaces as a
failure Outcome with code auth_error and status 0 and never escapes;
the code awaits `resolveToken` before the try block, so the callback
exception escapes `request` with no Outcome produced, while indeed no
network call is made. The claim (and the documented taxonomy) is the
intent; the code is the slip. -/
theorem c1_credential_failure_escapes_request :
    (HttpClient.create cfgCbThrows).request (envConst resp201) "GET"
      "/api/svc/v1/memories" (some optsU1) =
    { outcome := .error (.error "token fetch failed"), fetchCalled := false
      jwtUsed := false } := rfl

/-- C2: the claim says `request` never raises for every behaviour of
the credential strategy; with a self-signed strategy whose signing
routine throws, the exception escapes `request` because credential
resolution happens before the try block. -/
theorem c2_request_raises_on_signing_failure :
    (HttpClient.create cfgSelfSigned).request envSignThrows "POST"
      "/api/svc/v1/memories" (some optsU1) =
    { outcome := .error (.error "sign failure"), fetchCalled := false
      jwtUsed := true } := rfl

/-- C3: for every non-2xx response, `request` returns a failure Outcome
whose status is the real HTTP status; its code is the error body code
field when a JSON body carries a non-nullish one, and otherwise the
status-derived default from the fixed table 400 validation, 401
unauthorized, 403 forbidden, 404 not_found, 409 conflict, 429
rate_limited, 500 internal, anything else unknown. -/
theorem c3_non2xx_status_and_code (c : HttpClient) (env : Env) (m p : String)
    (o : Option RequestOptions) (res : HttpResponse)
    (hfetch : ∀ r, env.fetch r = .ok res) (hres : resOk res = false)
    (hauth : authResolves c env o) :
    ∃ e, (c.request env m p o).outcome = .ok { data := none, error := some e } ∧
      e.status = res.status ∧
      (∀ body cv, res.jsonBody = .ok body → jsGet body "code" = some cv →
        cv ≠ Json.null → e.code = cv) ∧
      (∀ body, res.jsonBody = .ok body →
        (jsGet body "code" = none ∨ jsGet body "code" = some Json.null) →
        e.code = .str (statusToCode res.status)) ∧
      (∀ t, res.jsonBody = .error t → e.code = .str (statusToCode res.status)) ∧
      statusToCode 400 = "validation" ∧ statusToCode 401 = "unauthorized" ∧
      statusToCode 403 = "forbidden" ∧ statusToCode 404 = "not_found" ∧
      statusToCode 409 = "conflict" ∧ statusToCode 429 = "rate_limited" ∧
      statusToCode 500 = "internal" ∧
      (∀ s, s ∉ ([400, 401, 403, 404, 409, 429, 500] : List Nat) →
        statusToCode s = "unknown") := by
  obtain ⟨req, b, hreq⟩ := request_ok_of_authResolves c env m p o hauth
  refine ⟨parseError res, ?_, ?_, ?_, ?_, ?_, rfl, rfl, rfl, rfl, rfl, rfl, rfl, ?_⟩
  · rw [hreq]
    simp [tryFetch_non2xx (hfetch req) hres]
  · unfold parseError
    cases res.jsonBody <;> rfl
  · intro body cv hb hc hnull
    unfold parseError
    rw [hb]
    simp only
    rw [hc]
    unfold orNullish
    cases cv <;> first | rfl | exact absurd rfl hnull
  · intro body hb hcase
    unfold parseError
    rw [hb]
    simp only
    rcases hcase with h | h <;> rw [h] <;> rfl
  · intro t ht
    unfold parseError
    rw [ht]
  · intro s hs
    simp only [List.mem_cons, List.not_mem_nil, or_false] at hs
    push_neg at hs
    obtain ⟨h400, h401, h403, h404, h409, h429, h500⟩ := hs
    unfold statusToCode
    split <;> simp_all

/-- Witness for C3 at a 404 response carrying a JSON error body. -/
theorem c3_witness :
    ∃ e, ((HttpClient.create cfgNoAuth).request (envConst resp404) "GET"
        "/widgets/w1" (some optsU1)).outcome =
      .ok { data := none, error := some e } ∧ e.status = resp404.status := by
  obtain ⟨e, h1, h2, -⟩ := c3_non2xx_status_and_code (HttpClient.create cfgNoAuth)
    (envConst resp404) "GET" "/widgets/w1" (some optsU1) resp404
    (fun _ => rfl) rfl (fun _ => ⟨none, rfl⟩)
  exact ⟨e, h1, h2⟩

/-- C4 counterexample: a 200 response with an empty body does not yield
a success Outcome with no payload — `res.json()` throws, the generic
catch converts it, and the returned Outcome has its error branch
populated (code network_error, status 0). -/
theorem c4_counterexample :
    (((HttpClient.create cfgNoAuth).request (envConst resp200empty) "GET"
        "/widgets" (some optsU1)).outcome =
      .ok (netErr (.error "Unexpected end of JSON input"))) ∧
    (netErr (.error "Unexpected end of JSON input")).error ≠ none := by
  refine ⟨rfl, ?_⟩
  simp [netErr]

/-- C4 amended: a 2xx response with a JSON body yields a success
Outcome whose payload equals the parsed body, and a 204 yields a
success Outcome with no payload; but a non-204 2xx response whose body
is empty (or otherwise unparsable) yields a failure Outcome with code
network_error and status 0, because the parse failure falls into the
generic catch block. -/
theorem c4_success_parsing (c : HttpClient) (env : Env) (m p : String)
    (o : Option RequestOptions) (res : HttpResponse)
    (hfetch : ∀ r, env.fetch r = .ok res) (hok : resOk res = true)
    (hauth : authResolves c env o) :
    (res.status = 204 →
      (c.request env m p o).outcome = .ok { data := none, error := none }) ∧
    (∀ j, res.status ≠ 204 → res.jsonBody = .ok j →
      (c.request env m p o).outcome = .ok { data := some j, error := none }) ∧
    (∀ t, res.status ≠ 204 → res.jsonBody = .error t →
      (c.request env m p o).outcome = .ok (netErr t)) := by
  obtain ⟨req, b, hreq⟩ := request_ok_of_authResolves c env m p o hauth
  refine ⟨?_, ?_, ?_⟩
  · intro h204
    rw [hreq]
    simp [tryFetch_204 (hfetch req) hok h204]
  · intro j h204 hj
    rw [hreq]
    simp [tryFetch_2xx_json (hfetch req) hok h204 hj]
  · intro t h204 hj
    rw [hreq]
    simp [tryFetch_2xx_badjson (hfetch req) hok h204 hj]

/-- Witness for C4 at a 201 response with a JSON body and at a 204
response. -/
theorem c4_witness :
    ((HttpClient.create cfgNoAuth).request (envConst resp201) "POST"
        "/widgets" (some optsU1)).outcome =
      .ok { data := some (.obj [("id", .str "w2"), ("name", .str "Gadget")])
            error := none } ∧
    ((HttpClient.create cfgNoAuth).request (envConst resp204) "DELETE"
        "/widgets/w1" (some optsU1)).outcome =
      .ok { data := none, error := none } := by
  constructor
  · exact (c4_success_parsing (HttpClient.create cfgNoAuth) (envConst resp201)
      "POST" "/widgets" (some optsU1) resp201 (fun _ => rfl) rfl
      (fun _ => ⟨none, rfl⟩)).2.1 _ (by simp [resp201]) rfl
  · exact (c4_success_parsing (HttpClient.create cfgNoAuth) (envConst resp204)
      "DELETE" "/widgets/w1" (some optsU1) resp204 (fun _ => rfl) rfl
      (fun _ => ⟨none, rfl⟩)).1 rfl

/-- C5 counterexample: a 200 response whose body fails to parse as JSON
yields a failure Outcome whose code is network_error, not internal. -/
theorem c5_counterexample :
    (((HttpClient.create cfgNoAuth).request (envConst resp200bad) "GET"
        "/widgets" (some optsU1)).outcome =
      .ok { data := none
            error := some { code := .str "network_error"
                            message := .str "Unexpected token in JSON"
                            status := 0, context := none } }) ∧
    Json.str "network_error" ≠ Json.str "internal" := by
  refine ⟨rfl, ?_⟩
  simp

/-- C5 amended: for every 2xx non-204 response whose body fails to
parse as JSON, `request` returns a failure Outcome with code
network_error and status 0 (the message being the parse exception
message) rather than propagating an unhandled exception. -/
theorem c5_parse_failure_is_network_error (c : HttpClient) (env : Env)
    (m p : String) (o : Option RequestOptions) (res : HttpResponse) (t : Thrown)
    (hfetch : ∀ r, env.fetch r = .ok res) (hok : resOk res = true)
    (h204 : res.status ≠ 204) (hj : res.jsonBody = .error t)
    (hauth : authResolves c env o) :
    (c.request env m p o).outcome =
      .ok { data := none
            error := some { code := .str "network_error"
                            message := .str (thrownMessage t)
                            status := 0, context := none } } := by
  obtain ⟨req, b, hreq⟩ := request_ok_of_authResolves c env m p o hauth
  rw [hreq]
  simp [tryFetch_2xx_badjson (hfetch req) hok h204 hj, netErr]

/-- Witness for C5 at a 200 response with an unparsable body. -/
theorem c5_witness :
    ((HttpClient.create cfgNoAuth).request (envConst resp200bad) "POST"
        "/widgets" (some optsU1)).outcome =
      .ok { data := none
            error := some { code := .str "network_error"
                            message := .str "Unexpected token in JSON"
                            status := 0, context := none } } :=
  c5_parse_failure_is_network_error (HttpClient.create cfgNoAuth)
    (envConst resp200bad) "POST" "/widgets" (some optsU1) resp200bad
    (.error "Unexpected token in JSON") (fun _ => rfl) rfl
    (by simp [resp200bad]) rfl (fun _ => ⟨none, rfl⟩)

/-- C6: when the fetch mechanism throws before any response is
obtained, `request` returns (never raises) a failure Outcome with code
network_error, status 0, and a message taken from the underlying
exception when it is an Error instance. -/
theorem c6_transport_failure (c : HttpClient) (env : Env) (m p : String)
    (o : Option RequestOptions) (t : Thrown)
    (hfetch : ∀ r, env.fetch r = .error t) (hauth : authResolves c env o) :
    (c.request env m p o).outcome =
      .ok { data := none
            error := some { code := .str "network_error"
                            message := .str (thrownMessage t)
                            status := 0, context := none } } ∧
    (∀ msg, t = .error msg → thrownMessage t = msg) := by
  obtain ⟨req, b, hreq⟩ := request_ok_of_authResolves c env m p o hauth
  constructor
  · rw [hreq]
    simp [tryFetch_netfail (hfetch req), netErr]
  · intro msg h
    rw [h]
    rfl

/-- Witness for C6 at a connection-refused style fetch failure. -/
theorem c6_witness :
    ((HttpClient.create cfgNoAuth).request (envThrows (.error "fetch failed: ECONNREFUSED"))
        "GET" "/widgets" (some optsU1)).outcome =
      .ok { data := none
            error := some { code := .str "network_error"
                            message := .str "fetch failed: ECONNREFUSED"
                            status := 0, context := none } } :=
  (c6_transport_failure (HttpClient.create cfgNoAuth)
    (envThrows (.error "fetch failed: ECONNREFUSED")) "GET" "/widgets"
    (some optsU1) (.error "fetch failed: ECONNREFUSED") (fun _ => rfl)
    (fun _ => ⟨none, rfl⟩)).1

/-- C7: the compound createAndPublish workflow is fail-fast — a failing
step-1 Outcome is returned after one transport call, a failing step-2
Outcome is returned as-is after two calls (step 3 never invoked), and
when every step succeeds the workflow returns the Outcome of the final
step after exactly three calls. -/
theorem c7_compound_fail_fast (request : HttpStep) (u : String)
    (i : CreateProfileInput) :
    (∀ e, (ProfileOperations.capStep1 request u i).error = some e →
      (ProfileOperations.capStep1 request u i).data = none →
      ProfileOperations.createAndPublish request u i =
        { outcome := .ok (ProfileOperations.capStep1 request u i), calls := 1 }) ∧
    (∀ j1 e, (ProfileOperations.capStep1 request u i).error = none →
      (ProfileOperations.capStep1 request u i).data = some j1 →
      (ProfileOperations.capStep2 request u ((jsGet j1 "id").getD Json.null)).error = some e →
      (ProfileOperations.capStep2 request u ((jsGet j1 "id").getD Json.null)).data = none →
      ProfileOperations.createAndPublish request u i =
        { outcome := .ok (ProfileOperations.capStep2 request u ((jsGet j1 "id").getD Json.null))
          calls := 2 }) ∧
    (∀ j1 j2, (ProfileOperations.capStep1 request u i).error = none →
      (ProfileOperations.capStep1 request u i).data = some j1 →
      (ProfileOperations.capStep2 request u ((jsGet j1 "id").getD Json.null)).error = none →
      (ProfileOperations.capStep2 request u ((jsGet j1 "id").getD Json.null)).data = some j2 →
      ProfileOperations.createAndPublish request u i =
        { outcome := .ok (ProfileOperations.capStep3 request u ((jsGet j2 "token").getD Json.null))
          calls := 3 }) := by
  refine ⟨?_, ?_, ?_⟩
  · intro e herr hdata
    have hs : ProfileOperations.capStep1 request u i =
        { data := none, error := some e } := by
      rw [show ProfileOperations.capStep1 request u i =
        ⟨(ProfileOperations.capStep1 request u i).data,
         (ProfileOperations.capStep1 request u i).error⟩ from rfl, hdata, herr]
    unfold ProfileOperations.createAndPublish
    simp only [herr, hs]
    rfl
  · intro j1 e herr1 hdata1 herr2 hdata2
    have hs : ProfileOperations.capStep2 request u ((jsGet j1 "id").getD Json.null) =
        { data := none, error := some e } := by
      rw [show ProfileOperations.capStep2 request u ((jsGet j1 "id").getD Json.null) =
        ⟨(ProfileOperations.capStep2 request u ((jsGet j1 "id").getD Json.null)).data,
         (ProfileOperations.capStep2 request u ((jsGet j1 "id").getD Json.null)).error⟩ from rfl,
        hdata2, herr2]
    unfold ProfileOperations.createAndPublish
    simp only [herr1, hdata1, bangGet, herr2, hs]
    rfl
  · intro j1 j2 herr1 hdata1 herr2 hdata2
    unfold ProfileOperations.createAndPublish
    simp only [herr1, hdata1, bangGet, herr2, hdata2]

/-- A mock transport for the C7 witness: step 1 succeeds with a created
memory, step 2 fails with a conflict, step 3 would succeed. -/
def mockStep2Fails : HttpStep := fun _ path _ _ =>
  if path = "/api/svc/v1/memories" then
    { data := some (.obj [("id", .str "m1")]), error := none }
  else if path = "/api/svc/v1/spaces/publish" then
    { data := none, error := some sampleErr }
  else
    { data := some (.obj [("published_at", .str "2026-03-01")]), error := none }

/-- Witness for C7: with a mocked transport whose second step fails,
the workflow returns exactly the step-2 failure Outcome after two
transport calls. -/
theorem c7_witness :
    ProfileOperations.createAndPublish mockStep2Fails "u1"
      { display_name := "Pat", bio := none, tags := none } =
    { outcome := .ok { data := none, error := some sampleErr }, calls := 2 } := by
  have h := (c7_compound_fail_fast mockStep2Fails "u1"
    { display_name := "Pat", bio := none, tags := none }).2.1
    (.obj [("id", .str "m1")]) sampleErr rfl rfl rfl rfl
  rw [h]
  rfl

/-- C8: with a browser-style window global defined, both top-level
factories throw synchronously before any transport instance is
constructed; with no window global the guard passes and construction
proceeds. -/
theorem c8_environment_guard (js : JsEnv) (config : HttpClientConfig) :
    (js.windowDefined = true →
      (createSvcClient js config).result = .error "Client SDKs are server-side only." ∧
      (createSvcClient js config).transportsCreated = 0 ∧
      (createAppClient js config).result = .error "Client SDKs are server-side only." ∧
      (createAppClient js config).transportsCreated = 0) ∧
    (js.windowDefined = false →
      (∃ cl, (createSvcClient js config).result = .ok cl) ∧
      (createSvcClient js config).transportsCreated = 1 ∧
      (∃ cl, (createAppClient js config).result = .ok cl) ∧
      (createAppClient js config).transportsCreated = 1) := by
  constructor
  · intro h
    simp [createSvcClient, createAppClient, assertServerSide, h]
  · intro h
    simp only [createSvcClient, createAppClient, assertServerSide, h,
      Bool.false_eq_true, if_false]
    exact ⟨⟨_, rfl⟩, trivial, ⟨_, rfl⟩, trivial⟩

/-- Witness for C8: the guard throws with a window global and passes
without one. -/
theorem c8_witness :
    (createSvcClient ⟨true⟩ cfgNoAuth).result = .error "Client SDKs are server-side only." ∧
    (createSvcClient ⟨true⟩ cfgNoAuth).transportsCreated = 0 ∧
    (∃ cl, (createSvcClient ⟨false⟩ cfgNoAuth).result = .ok cl) := by
  obtain ⟨h1, h2, -, -⟩ := (c8_environment_guard ⟨true⟩ cfgNoAuth).1 rfl
  obtain ⟨h3, -, -, -⟩ := (c8_environment_guard ⟨false⟩ cfgNoAuth).2 rfl
  exact ⟨h1, h2, h3⟩

/-- Helper for C9: an Outcome produced by the try block never has both
branches populated, and whenever its error branch is populated its data
field is null. -/
theorem tryFetch_branch_shape (env : Env) (req : FetchRequest) :
    ¬ ((tryFetch env req).data.isSome = true ∧ (tryFetch env req).error.isSome = true) ∧
    ((tryFetch env req).error.isSome = true → (tryFetch env req).data = none) := by
  unfold tryFetch
  cases h : env.fetch req with
  | error t => simp [netErr]
  | ok res =>
    by_cases hok : resOk res = true
    · by_cases h204 : res.status = 204
      · simp [hok, h204]
      · cases hj : res.jsonBody <;>
          simp [hok, h204, hj, netErr]
    · simp only [Bool.not_eq_true] at hok
      simp [hok]

/-- C9 counterexample: the Outcome `request` returns for a 204 response
has neither branch populated — both `data` and `error` are null. -/
theorem c9_counterexample :
    (((HttpClient.create cfgNoAuth).request (envConst resp204) "DELETE"
        "/widgets/w1" (some optsU1)).outcome =
      .ok { data := none, error := none }) ∧
    ¬ exactlyOne ({ data := none, error := none } : SdkResponse Json) := by
  refine ⟨rfl, ?_⟩
  rintro (⟨h, -⟩ | ⟨-, h⟩) <;> simp at h

/-- C9 amended: the `ok` and `fail` constructors populate exactly one
branch; no Outcome returned by `request` ever has both branches
populated, and whenever the error branch is populated the data field is
null; but the 204/no-payload success has neither branch populated (data
and error are both null) — and so does a 2xx response whose body is the
JSON text null, since the data field carries whatever `res.json()`
resolved to. -/
theorem c9_branch_invariant (d : Json) (e : RememberError) (c : HttpClient)
    (env : Env) (m p : String) (o : Option RequestOptions) :
    exactlyOne (ok d).toSdkResponse ∧
    exactlyOne (fail e : ThrowableSdkResponse Json).toSdkResponse ∧
    (∀ out, (c.request env m p o).outcome = .ok out →
      ¬ (out.data.isSome = true ∧ out.error.isSome = true) ∧
      (out.error.isSome = true → out.data = none)) := by
  refine ⟨Or.inl ⟨rfl, rfl⟩, Or.inr ⟨rfl, rfl⟩, ?_⟩
  intro out hout
  unfold HttpClient.request at hout
  by_cases hu : userIdTruthy o = true
  · simp only [hu, if_pos] at hout
    rcases hres : (resolveToken c.config env (userIdOf o)).result with t | tok
    · rw [hres] at hout
      simp at hout
    · rw [hres] at hout
      simp only [Except.ok.injEq] at hout
      obtain ⟨h1, h2⟩ := tryFetch_branch_shape env
        { url := c.buildUrl p (paramsOf o), method := m
          headers := attachAuth (("Content-Type", "application/json") :: headersOf o) tok
          body := serializeBody (bodyOf o) }
      rw [hout] at h1 h2
      exact ⟨h1, h2⟩
  · simp only [Bool.not_eq_true] at hu
    simp only [hu, Bool.false_eq_true, if_false, Except.ok.injEq] at hout
    obtain ⟨h1, h2⟩ := tryFetch_branch_shape env
      { url := c.buildUrl p (paramsOf o), method := m
        headers := ("Content-Type", "application/json") :: headersOf o
        body := serializeBody (bodyOf o) }
    rw [hout] at h1 h2
    exact ⟨h1, h2⟩

/-- Witness for C9: the constructor part and the returned-Outcome part
at a concrete 201 request. -/
theorem c9_witness :
    exactlyOne (ok (Json.str "payload")).toSdkResponse ∧
    exactlyOne (fail sampleErr : ThrowableSdkResponse Json).toSdkResponse ∧
    ¬ ((({ data := some (.obj [("id", .str "w2"), ("name", .str "Gadget")])
           error := none } : SdkResponse Json)).data.isSome = true ∧
       (({ data := some (.obj [("id", .str "w2"), ("name", .str "Gadget")])
           error := none } : SdkResponse Json)).error.isSome = true) := by
  have h := c9_branch_invariant (Json.str "payload") sampleErr
    (HttpClient.create cfgNoAuth) (envConst resp201) "POST" "/widgets" (some optsU1)
  exact ⟨h.1, h.2.1, (h.2.2 _ rfl).1⟩

/-- C10: when both credential strategies are configured at once, the
callback strategy is used exclusively — `resolveToken` returns the
callback result and the lazily imported JWT signing path is never
exercised on any request. -/
theorem c10_callback_strategy_wins (c : HttpClient) (env : Env)
    (cb : String → Except Thrown String) (a : AuthConfig)
    (hcb : c.config.getAuthToken = some cb) (_ha : c.config.auth = some a) :
    (∀ u, resolveToken c.config env u =
      { result := (cb u).map some, jwtUsed := false }) ∧
    (∀ m p o, (c.request env m p o).jwtUsed = false) := by
  have hres : ∀ u, resolveToken c.config env u =
      { result := (cb u).map some, jwtUsed := false } := by
    intro u
    unfold resolveToken
    rw [hcb]
  refine ⟨hres, ?_⟩
  intro m p o
  unfold HttpClient.request
  by_cases hu : userIdTruthy o = true
  · simp only [hu, if_pos, hres]
    cases cb (userIdOf o) <;> rfl
  · simp only [Bool.not_eq_true] at hu
    simp [hu]

/-- Witness for C10 at a configuration carrying both strategies. -/
theorem c10_witness :
    resolveToken cfgBoth (envConst resp201) "u1" =
      { result := .ok (some "cb-u1"), jwtUsed := false } ∧
    ((HttpClient.create cfgBoth).request (envConst resp201) "GET" "/widgets"
      (some optsU1)).jwtUsed = false := by
  have h := c10_callback_strategy_wins (HttpClient.create cfgBoth)
    (envConst resp201) (fun u => .ok ("cb-" ++ u))
    { serviceToken := "shared-secret", jwtOptions := none } rfl rfl
  exact ⟨h.1 "u1", h.2 "GET" "/widgets" (some optsU1)⟩

end CoreSdk
